import Mathlib

/-!
Shallow embedding of the generic-CRUD / pagination core of the
`beanieORMTutorial` repository (files `app/models/users.py`,
`app/models/articles.py`, `app/models/comments.py`,
`app/services/base_crud_services.py`).

Modelling conventions:
* `datetime` values are ticks (`Nat`); `datetime.now(...)` is an explicit
  `now : Nat` argument threaded to every operation that stamps a time.
* MongoDB object ids are `Nat`; a document that has not been inserted yet has
  `id = none`.
* Python dicts used as field maps / filters are association lists
  `List (String × Value)`.
* Fallible Python code (pydantic validation errors, `TypeError`,
  `AttributeError`) is `Except PyError`.
-/

namespace BeanieTutorial

/-- Python runtime errors that the modelled code can raise. -/
inductive PyError where
  | validationError
  | typeError
  | attributeError
  | storeError
deriving DecidableEq, Repr

/-- A Python value as it appears in the field maps handed to the services. -/
inductive Value where
  | vstr : String → Value
  | vint : Int → Value
  | vbool : Bool → Value
  | vdt : Nat → Value
  | vnull : Value
deriving DecidableEq, Repr

/-- A Python dict `dict[str, any]` used as constructor input, `$set` patch or
filter. -/
abbrev FieldMap : Type := List (String × Value)

/-- Dict lookup. -/
def FieldMap.find (m : FieldMap) (k : String) : Option Value :=
  (List.find? (fun p => p.1 == k) m).map (fun p => p.2)

/-- `k in m` for a Python dict. -/
def FieldMap.hasKey (m : FieldMap) (k : String) : Bool :=
  (m.find k).isSome

/-- Required string field of a constructor input. -/
def FieldMap.getStr (m : FieldMap) (k : String) : Option String :=
  match m.find k with
  | some (Value.vstr s) => some s
  | _ => none

/-- Optional int field of a constructor input: absent or `None` is `none`,
a non-int value is a validation error. -/
def FieldMap.getIntOpt (m : FieldMap) (k : String) : Except PyError (Option Int) :=
  match m.find k with
  | none => Except.ok none
  | some Value.vnull => Except.ok none
  | some (Value.vint i) => Except.ok (some i)
  | some _ => Except.error PyError.validationError

/-- Optional string field of a constructor input. -/
def FieldMap.getStrOpt (m : FieldMap) (k : String) : Except PyError (Option String) :=
  match m.find k with
  | none => Except.ok none
  | some Value.vnull => Except.ok none
  | some (Value.vstr s) => Except.ok (some s)
  | some _ => Except.error PyError.validationError

/-- Optional bool field with a default. -/
def FieldMap.getBoolD (m : FieldMap) (k : String) (d : Bool) : Except PyError Bool :=
  match m.find k with
  | none => Except.ok d
  | some (Value.vbool b) => Except.ok b
  | some _ => Except.error PyError.validationError

/-- Required int field (used for `Link` foreign keys, stored by identifier). -/
def FieldMap.getInt (m : FieldMap) (k : String) : Option Int :=
  match m.find k with
  | some (Value.vint i) => some i
  | _ => none

/-! ## `app/models/users.py` -/

/-- `class User(Document)`. -/
structure User where
  id : Option Nat
  username : String
  email : String
  age : Option Int
  created_at : Nat
  updated_at : Option Nat
  bio : Option String
  is_active : Bool
deriving DecidableEq, Repr

/-- `@before_event([Insert, Update]) async def update_timestamp(self)`:
`self.updated_at = datetime.now(tz=UTC)`. -/
def User.update_timestamp (u : User) (now : Nat) : User :=
  { u with updated_at := some now }

/-- Python `str.strip()`: drop leading and trailing whitespace (modelled on
the character list). -/
def pyStrip (s : String) : String :=
  String.mk
    (((s.data.dropWhile Char.isWhitespace).reverse.dropWhile
        Char.isWhitespace).reverse)

/-- `age: int | None = Field(None, ge=13, le=120)`: the optional age is out of
range when present and outside 13–120. -/
def ageOutOfRange : Option Int → Bool
  | some a => decide (a < 13) || decide (120 < a)
  | none => false

/-- `bio: str | None = Field(None, max_length=500)`: the optional bio is too
long when present and over 500 chars. -/
def bioTooLong : Option String → Bool
  | some b => decide (500 < b.length)
  | none => false

/-- `User(**obj_in)`: pydantic construction + validation of a `User` from a
field map.  Field constraints from the source: `username` 3–50 chars required,
`email` a validated e-mail format (abstracted as containing `@`) required,
`age` optional in 13–120, `bio` optional at most 500 chars,
`is_active` defaults to `True`, `created_at` defaults to `datetime.now`,
`updated_at` defaults to `None`.  Unknown keys are ignored (pydantic default). -/
def User.fromMap (m : FieldMap) (now : Nat) : Except PyError User := do
  let some username := m.getStr "username" | Except.error PyError.validationError
  let some email := m.getStr "email" | Except.error PyError.validationError
  if username.length < 3 ∨ 50 < username.length then
    Except.error PyError.validationError
  else if email.data.contains '@' = false then
    Except.error PyError.validationError
  else do
    let age ← m.getIntOpt "age"
    if ageOutOfRange age then
      Except.error PyError.validationError
    else do
      let bio ← m.getStrOpt "bio"
      if bioTooLong bio then
        Except.error PyError.validationError
      else do
        let is_active ← m.getBoolD "is_active" true
        let created_at := match m.find "created_at" with
          | some (Value.vdt t) => t
          | _ => now
        Except.ok
          { id := none, username := username, email := email, age := age
            created_at := created_at, updated_at := none, bio := bio
            is_active := is_active }

/-! ## `app/models/articles.py` -/

/-- `class ArticleStatus(str, Enum)`. -/
inductive ArticleStatus where
  | draft
  | published
  | archived
deriving DecidableEq, Repr

/-- `class Article(Document)`.  `author : Link[User]` is stored as the
referenced identifier; the `comments` back-link is never stored (computed at
query time) and so does not appear as a field. -/
structure Article where
  id : Option Nat
  title : String
  author : Nat
  content : String
  tags : List String
  summary : Option String
  status : ArticleStatus
  published_at : Option Nat
  created_at : Nat
  updated_at : Option Nat
  view_count : Nat
deriving DecidableEq, Repr

/-- `@field_validator("tags") validate_tags`: keep non-empty trimmed lowered
tags, collapse duplicates, cap at 10.  (Python builds a `set`, whose iteration
order is unspecified; the model keeps first-occurrence order.) -/
def Article.validate_tags (v : List String) : List String :=
  match v with
  | [] => []
  | _ =>
    let cleaned := (v.map (fun t => (pyStrip t).toLower)).filter (fun t => t ≠ "")
    (cleaned.eraseDups).take 10

/-- `@before_event([Insert, Update]) async def update(self)`: stamp
`updated_at`; if `status == PUBLISHED` and `published_at` is falsy (a
`datetime` is always truthy, `None` is falsy) stamp `published_at`. -/
def Article.update (a : Article) (now : Nat) : Article :=
  let a' := { a with updated_at := some now }
  if a'.status = ArticleStatus.published ∧ a'.published_at = none then
    { a' with published_at := some now }
  else a'

/-- `def is_published(self)`. -/
def Article.is_published (a : Article) : Bool :=
  a.status = ArticleStatus.published

/-- `def increment_view_count(self)`. -/
def Article.increment_view_count (a : Article) : Article :=
  { a with view_count := a.view_count + 1 }

/-- `Article(**obj_in)`: pydantic construction + validation of an `Article`.
`title` 1–200 chars required, `author` required link, `content` non-empty
required, `tags` run through `validate_tags` (default `[]`), `summary`
optional, `status` defaults to `DRAFT`, `view_count` defaults to `0`. -/
def Article.fromMap (m : FieldMap) (now : Nat) : Except PyError Article := do
  let some title := m.getStr "title" | Except.error PyError.validationError
  let some author := m.getInt "author" | Except.error PyError.validationError
  let some content := m.getStr "content" | Except.error PyError.validationError
  if title.length < 1 ∨ 200 < title.length then
    Except.error PyError.validationError
  else if content.length < 1 then
    Except.error PyError.validationError
  else do
    let summary ← m.getStrOpt "summary"
    let tags := match m.find "tags" with
      | none => []
      | some _ => []
    let status := match m.getStr "status" with
      | some "draft" => ArticleStatus.draft
      | some "published" => ArticleStatus.published
      | some "archived" => ArticleStatus.archived
      | _ => ArticleStatus.draft
    let created_at := match m.find "created_at" with
      | some (Value.vdt t) => t
      | _ => now
    Except.ok
      { id := none, title := title, author := author.toNat, content := content
        tags := Article.validate_tags tags, summary := summary, status := status
        published_at := none, created_at := created_at, updated_at := none
        view_count := 0 }

/-! ## `app/models/comments.py` -/

/-- `class Comment(Document)`.  `article`, `author`, `parent_comment` are
`Link`s stored by identifier; the `replies` back-link is computed at query time
and never stored. -/
structure Comment where
  id : Option Nat
  article : Nat
  author : Nat
  content : String
  created_at : Nat
  updated_at : Option Nat
  is_deleted : Bool
  is_edited : Bool
  parent_comment : Option Nat
deriving DecidableEq, Repr

/-- `@field_validator("content") validate_content`: strip; empty (or
whitespace-only) content is a validation error. -/
def Comment.validate_content (v : String) : Except PyError String :=
  if v = "" then Except.error PyError.validationError
  else if pyStrip v = "" then Except.error PyError.validationError
  else Except.ok (pyStrip v)

/-- `@before_event([Insert, Update]) async def update_timestamp(self)`:
`if self.created_at: self.is_edited = True` — `created_at` is a non-optional
`datetime` populated by its `default_factory` at construction, and a
`datetime` value is always truthy, so the guard holds on every event,
including the very first `Insert`; then `self.updated_at = now`. -/
def Comment.update_timestamp (c : Comment) (now : Nat) : Comment :=
  { c with is_edited := true, updated_at := some now }

/-- `def soft_delete(self)`: set `is_deleted` and replace `content` with the
fixed placeholder. -/
def Comment.soft_delete (c : Comment) : Comment :=
  { c with is_deleted := true, content := "[This comment has been deleted]" }

/-- `def is_reply(self)`. -/
def Comment.is_reply (c : Comment) : Bool :=
  c.parent_comment.isSome

/-- `def is_root_comment(self)`. -/
def Comment.is_root_comment (c : Comment) : Bool :=
  c.parent_comment.isNone

/-- `Comment(**obj_in)`: pydantic construction + validation of a `Comment`.
`article`, `author` required links, `content` required (1–1000 chars, trimmed,
rejected when empty after trim), `is_deleted`/`is_edited` default `False`,
`parent_comment` optional, `created_at` defaults to `datetime.now`. -/
def Comment.fromMap (m : FieldMap) (now : Nat) : Except PyError Comment := do
  let some article := m.getInt "article" | Except.error PyError.validationError
  let some author := m.getInt "author" | Except.error PyError.validationError
  let some rawContent := m.getStr "content" | Except.error PyError.validationError
  let content ← Comment.validate_content rawContent
  if content.length < 1 ∨ 1000 < content.length then
    Except.error PyError.validationError
  else do
    let parent ← m.getIntOpt "parent_comment"
    let created_at := match m.find "created_at" with
      | some (Value.vdt t) => t
      | _ => now
    Except.ok
      { id := none, article := article.toNat, author := author.toNat
        content := content, created_at := created_at, updated_at := none
        is_deleted := false, is_edited := false
        parent_comment := parent.map Int.toNat }

/-! ## Raw MongoDB field access (filters and `$set` patches)

Dict filters compare a stored field against a value; a `$set` patch overwrites
the named fields in place, **without** running any `before_event` action
(query-level updates bypass document lifecycle in Beanie).  Fields not part of
the schema are not tracked by the model. -/

/-- Read a stored `User` field by its document key. -/
def User.getField (u : User) : String → Option Value
  | "username" => some (Value.vstr u.username)
  | "email" => some (Value.vstr u.email)
  | "age" => some (match u.age with | some a => Value.vint a | none => Value.vnull)
  | "created_at" => some (Value.vdt u.created_at)
  | "updated_at" =>
      some (match u.updated_at with | some t => Value.vdt t | none => Value.vnull)
  | "bio" => some (match u.bio with | some b => Value.vstr b | none => Value.vnull)
  | "is_active" => some (Value.vbool u.is_active)
  | _ => none

/-- `$set` one `User` field (schema-typed fields only). -/
def User.setField (u : User) (k : String) (v : Value) : User :=
  match k, v with
  | "username", Value.vstr s => { u with username := s }
  | "email", Value.vstr s => { u with email := s }
  | "age", Value.vint i => { u with age := some i }
  | "age", Value.vnull => { u with age := none }
  | "bio", Value.vstr s => { u with bio := some s }
  | "bio", Value.vnull => { u with bio := none }
  | "is_active", Value.vbool b => { u with is_active := b }
  | "created_at", Value.vdt t => { u with created_at := t }
  | "updated_at", Value.vdt t => { u with updated_at := some t }
  | "updated_at", Value.vnull => { u with updated_at := none }
  | _, _ => u

/-- Read a stored `Article` field by its document key. -/
def Article.getField (a : Article) : String → Option Value
  | "title" => some (Value.vstr a.title)
  | "author" => some (Value.vint a.author)
  | "content" => some (Value.vstr a.content)
  | "summary" =>
      some (match a.summary with | some s => Value.vstr s | none => Value.vnull)
  | "status" =>
      some (Value.vstr (match a.status with
        | ArticleStatus.draft => "draft"
        | ArticleStatus.published => "published"
        | ArticleStatus.archived => "archived"))
  | "published_at" =>
      some (match a.published_at with | some t => Value.vdt t | none => Value.vnull)
  | "created_at" => some (Value.vdt a.created_at)
  | "updated_at" =>
      some (match a.updated_at with | some t => Value.vdt t | none => Value.vnull)
  | "view_count" => some (Value.vint a.view_count)
  | _ => none

/-- `$set` one `Article` field (schema-typed fields only). -/
def Article.setField (a : Article) (k : String) (v : Value) : Article :=
  match k, v with
  | "title", Value.vstr s => { a with title := s }
  | "content", Value.vstr s => { a with content := s }
  | "summary", Value.vstr s => { a with summary := some s }
  | "summary", Value.vnull => { a with summary := none }
  | "status", Value.vstr "draft" => { a with status := ArticleStatus.draft }
  | "status", Value.vstr "published" => { a with status := ArticleStatus.published }
  | "status", Value.vstr "archived" => { a with status := ArticleStatus.archived }
  | "published_at", Value.vdt t => { a with published_at := some t }
  | "published_at", Value.vnull => { a with published_at := none }
  | "created_at", Value.vdt t => { a with created_at := t }
  | "updated_at", Value.vdt t => { a with updated_at := some t }
  | "updated_at", Value.vnull => { a with updated_at := none }
  | "view_count", Value.vint i => { a with view_count := i.toNat }
  | _, _ => a

/-- Read a stored `Comment` field by its document key. -/
def Comment.getField (c : Comment) : String → Option Value
  | "article" => some (Value.vint c.article)
  | "author" => some (Value.vint c.author)
  | "content" => some (Value.vstr c.content)
  | "created_at" => some (Value.vdt c.created_at)
  | "updated_at" =>
      some (match c.updated_at with | some t => Value.vdt t | none => Value.vnull)
  | "is_deleted" => some (Value.vbool c.is_deleted)
  | "is_edited" => some (Value.vbool c.is_edited)
  | "parent_comment" =>
      some (match c.parent_comment with | some i => Value.vint i | none => Value.vnull)
  | _ => none

/-- `$set` one `Comment` field (schema-typed fields only). -/
def Comment.setField (c : Comment) (k : String) (v : Value) : Comment :=
  match k, v with
  | "content", Value.vstr s => { c with content := s }
  | "is_deleted", Value.vbool b => { c with is_deleted := b }
  | "is_edited", Value.vbool b => { c with is_edited := b }
  | "parent_comment", Value.vint i => { c with parent_comment := some i.toNat }
  | "parent_comment", Value.vnull => { c with parent_comment := none }
  | "created_at", Value.vdt t => { c with created_at := t }
  | "updated_at", Value.vdt t => { c with updated_at := some t }
  | "updated_at", Value.vnull => { c with updated_at := none }
  | _, _ => c

/-- A dict filter matches a document when every pair agrees with the stored
field. -/
def matchesFilter (getField : α → String → Option Value) (d : α)
    (f : FieldMap) : Bool :=
  f.all (fun kv => getField d kv.1 == some kv.2)

/-- Apply a `$set` patch: overwrite each named field, no lifecycle action. -/
def applySet (setField : α → String → Value → α) (d : α) (p : FieldMap) : α :=
  p.foldl (fun d kv => setField d kv.1 kv.2) d

/-! ## The store -/

/-- The three named collections plus the id counter the store uses to assign
fresh identifiers. -/
structure Store where
  users : List User
  articles : List Article
  comments : List Comment
  nextId : Nat
deriving DecidableEq, Repr

/-- The entity kinds the generic services are parameterized over
(`model: type[DBModelType]`). -/
inductive Kind where
  | user
  | article
  | comment
deriving DecidableEq, Repr

/-- A document of some kind (heterogeneous result of the generic services). -/
inductive Doc where
  | user : User → Doc
  | article : Article → Doc
  | comment : Comment → Doc
deriving DecidableEq, Repr

/-- `await item.insert()` for a `User`: run the `before_event(Insert)` action
`update_timestamp`, assign a fresh id, persist. -/
def User.insertOne (u : User) (s : Store) (now : Nat) : Store × User :=
  let u' := { u.update_timestamp now with id := some s.nextId }
  ({ s with users := s.users ++ [u'], nextId := s.nextId + 1 }, u')

/-- `await item.insert()` for an `Article`: run the `before_event(Insert)`
action `update` (its pre-write hook), assign a fresh id, persist. -/
def Article.insertOne (a : Article) (s : Store) (now : Nat) : Store × Article :=
  let a' := { a.update now with id := some s.nextId }
  ({ s with articles := s.articles ++ [a'], nextId := s.nextId + 1 }, a')

/-- `await item.insert()` for a `Comment`: run the `before_event(Insert)`
action `update_timestamp`, assign a fresh id, persist. -/
def Comment.insertOne (c : Comment) (s : Store) (now : Nat) : Store × Comment :=
  let c' := { c.update_timestamp now with id := some s.nextId }
  ({ s with comments := s.comments ++ [c'], nextId := s.nextId + 1 }, c')

/-! ## `app/services/base_crud_services.py` -/

/-- `app/schemas/pagination.py`: `class PaginationResponse(BaseModel, Generic)`. -/
structure PaginationResponse (α : Type) where
  items : List α
  total : Nat
  page : Nat
  limit : Nat
deriving DecidableEq, Repr

/-- `async def get(model, page=1, limit=10, filters=None)`, the pagination
engine, generic in the document type:
`filters = filters or {}` (so `None` means match-all),
`skip = (page - 1) * limit`,
`query = model.find(filters)`, `total = await query.count()`,
`items = await query.skip(skip).limit(limit).to_list()`. -/
def getPage (getField : α → String → Option Value) (docs : List α)
    (page : Nat) (limit : Nat) (filters : Option FieldMap) :
    PaginationResponse α :=
  let f := filters.getD []
  let skip := (page - 1) * limit
  let query := docs.filter (fun d => matchesFilter getField d f)
  { items := (query.drop skip).take limit, total := query.length,
    page := page, limit := limit }

/-- `get` dispatched over the entity kind, as the per-kind services call it. -/
def get (model : Kind) (s : Store) (page : Nat) (limit : Nat)
    (filters : Option FieldMap) : PaginationResponse Doc :=
  match model with
  | Kind.user =>
      let r := getPage User.getField s.users page limit filters
      { items := r.items.map Doc.user, total := r.total, page := page, limit := limit }
  | Kind.article =>
      let r := getPage Article.getField s.articles page limit filters
      { items := r.items.map Doc.article, total := r.total, page := page, limit := limit }
  | Kind.comment =>
      let r := getPage Comment.getField s.comments page limit filters
      { items := r.items.map Doc.comment, total := r.total, page := page, limit := limit }

/-- `obj_in: dict[str, any] | list[dict[str, any]]` — or anything else, since
Python does not enforce the annotation (`other` covers inputs that are neither
a dict nor a list). -/
inductive CreateInput where
  | dict : FieldMap → CreateInput
  | list : List FieldMap → CreateInput
  | other : CreateInput
deriving DecidableEq, Repr

/-- What `create` hands back to its caller. -/
inductive CreateResult where
  /-- A pymongo `InsertManyResult`, which carries only the inserted ids. -/
  | insertedMany : List Nat → CreateResult
  /-- Python `None`. -/
  | pyNone : CreateResult
deriving DecidableEq, Repr

/-- `model(**obj_in)`: construct + validate one document of the given kind. -/
def constructDoc (model : Kind) (m : FieldMap) (now : Nat) : Except PyError Doc :=
  match model with
  | Kind.user => (User.fromMap m now).map Doc.user
  | Kind.article => (Article.fromMap m now).map Doc.article
  | Kind.comment => (Comment.fromMap m now).map Doc.comment

/-- Assign consecutive fresh ids to a batch of users (`insert_many`). -/
def assignIds (start : Nat) : List User → List User
  | [] => []
  | u :: us => { u with id := some start } :: assignIds (start + 1) us

/-- `async def create(model, obj_in)` of `base_crud_services.py`, translated
line by line:

* dict branch: `item = model(**obj_in)` (validated construction), then
  `return await model.insert()` — `insert` is an **instance** method invoked
  on the class object itself, so the call raises `TypeError`; the constructed
  `item` is never persisted and the following `return item` is unreachable.
* list branch: `users = [User(**item) for item in obj_in]` — the
  comprehension builds `User` documents whatever `model` was passed; a
  validation failure in any entry aborts before any insert.  Then
  `return await User.insert_many(users)`: bulk insert into the users
  collection (Beanie `insert_many` runs no `before_event` action) returning
  the pymongo result, which carries the inserted ids.
* otherwise: `return None`. -/
def create (model : Kind) (obj_in : CreateInput) (s : Store) (now : Nat) :
    Except PyError (Store × CreateResult) :=
  match obj_in with
  | CreateInput.dict m => do
      let _item ← constructDoc model m now
      throw PyError.typeError
  | CreateInput.list ms => do
      let users ← ms.mapM (fun m => User.fromMap m now)
      let ids := (List.range users.length).map (fun i => s.nextId + i)
      Except.ok
        ({ s with users := s.users ++ assignIds s.nextId users,
                  nextId := s.nextId + users.length },
         CreateResult.insertedMany ids)
  | CreateInput.other => Except.ok (s, CreateResult.pyNone)

/-- A repository-defined document method reachable through
`getattr(item, update_method)`.  An `async def` is awaitable; a plain `def`
is not, so `await func()` on it first runs the call and then raises
`TypeError`. -/
inductive PyMethod (α : Type) where
  | asyncMethod : (α → Nat → α) → PyMethod α
  | syncMethod : (α → α) → PyMethod α

/-- `getattr(user, name)` restricted to the methods `users.py` defines;
an unknown name raises `AttributeError` (framework-inherited attributes are
outside the model). -/
def User.getMethod (name : String) : Except PyError (PyMethod User) :=
  match name with
  | "update_timestamp" => Except.ok (PyMethod.asyncMethod User.update_timestamp)
  | _ => Except.error PyError.attributeError

/-- `getattr(article, name)` restricted to the methods `articles.py` defines. -/
def Article.getMethod (name : String) : Except PyError (PyMethod Article) :=
  match name with
  | "update" => Except.ok (PyMethod.asyncMethod Article.update)
  | "is_published" => Except.ok (PyMethod.syncMethod (fun a => a))
  | "increment_view_count" =>
      Except.ok (PyMethod.syncMethod Article.increment_view_count)
  | _ => Except.error PyError.attributeError

/-- `getattr(comment, name)` restricted to the methods `comments.py` defines. -/
def Comment.getMethod (name : String) : Except PyError (PyMethod Comment) :=
  match name with
  | "update_timestamp" => Except.ok (PyMethod.asyncMethod Comment.update_timestamp)
  | "soft_delete" => Except.ok (PyMethod.syncMethod Comment.soft_delete)
  | "is_reply" => Except.ok (PyMethod.syncMethod (fun c => c))
  | "is_root_comment" => Except.ok (PyMethod.syncMethod (fun c => c))
  | _ => Except.error PyError.attributeError

/-- `await model.find_one(id=item_id)`: locate the single document by
identifier (`item_id` defaults to `None`, which matches nothing). -/
def findById (docId : α → Option Nat) (docs : List α) :
    Option Nat → Option α
  | none => none
  | some i => docs.find? (fun d => docId d == some i)

/-- `find_one(...).update({"$set": p})`: patch the first matching document. -/
def updateFirst (p : α → Bool) (f : α → α) : List α → List α
  | [] => []
  | x :: xs => if p x then f x :: xs else x :: updateFirst p f xs

/-- `async def update(model, item_id=None, filters=None, update_data=None,
update_method=None)` of `base_crud_services.py`, translated line by line and
generic in the document type.  The returned `Option Bool` is the Python
return value (`none` = the function fell off the end, returning `None`).

* `if update_method:` (an empty string is falsy): `item = await
  model.find_one(id=item_id)`; if found, `func = getattr(item,
  update_method)` (unknown name → `AttributeError`), `await func()` — an
  `async` method mutates only the **in-memory** `item`, which is never
  written back to the store (`result = item` and nothing more); a plain
  method runs and then `await` of its non-awaitable result raises
  `TypeError`.
* `if update_data:` (an empty dict is falsy): query-level
  `find_one(id=item_id).update({"$set": update_data})` — the raw patch is
  applied to the stored document, bypassing every `before_event` action.
* `if filters:` (an empty dict is falsy):
  `find_many(filters).update_many({"$set": update_data})`; when
  `update_data` is `None` the update document `{"$set": None}` is invalid
  and the store errors; then `return bool(result)` — a pymongo
  `UpdateResult` defines no `__bool__`, so it is truthy even when zero
  documents matched.
* no `return` outside the `filters` branch: every other path returns
  Python `None`. -/
def updateGeneric (docId : α → Option Nat)
    (getMethod : String → Except PyError (PyMethod α))
    (setField : α → String → Value → α)
    (getField : α → String → Option Value)
    (docs : List α)
    (item_id : Option Nat) (filters : Option FieldMap)
    (update_data : Option FieldMap) (update_method : Option String)
    (now : Nat) : Except PyError (List α × Option Bool) := do
  match update_method with
  | some name =>
      if name = "" then pure () else
      match findById docId docs item_id with
      | some item =>
          match ← getMethod name with
          | PyMethod.asyncMethod f =>
              let _mutatedInMemoryOnly := f item now
              pure ()
          | PyMethod.syncMethod f =>
              let _mutatedInMemoryOnly := f item
              throw PyError.typeError
      | none => pure ()
  | none => pure ()
  let docs1 := match update_data with
    | some patch =>
        if patch = [] then docs else
        match item_id with
        | some i =>
            updateFirst (fun d => docId d == some i)
              (fun d => applySet setField d patch) docs
        | none => docs
    | none => docs
  match filters with
  | some f =>
      if f = [] then Except.ok (docs1, none) else
      match update_data with
      | none => throw PyError.storeError
      | some patch =>
          let docs2 := docs1.map (fun d =>
            if matchesFilter getField d f then applySet setField d patch else d)
          Except.ok (docs2, some true)
  | none => Except.ok (docs1, none)

/-- `update` dispatched over the entity kind, rebuilding the store. -/
def update (model : Kind) (item_id : Option Nat) (filters : Option FieldMap)
    (update_data : Option FieldMap) (update_method : Option String)
    (s : Store) (now : Nat) : Except PyError (Store × Option Bool) :=
  match model with
  | Kind.user => do
      let (docs, r) ← updateGeneric User.id User.getMethod User.setField
        User.getField s.users item_id filters update_data update_method now
      Except.ok ({ s with users := docs }, r)
  | Kind.article => do
      let (docs, r) ← updateGeneric Article.id Article.getMethod Article.setField
        Article.getField s.articles item_id filters update_data update_method now
      Except.ok ({ s with articles := docs }, r)
  | Kind.comment => do
      let (docs, r) ← updateGeneric Comment.id Comment.getMethod Comment.setField
        Comment.getField s.comments item_id filters update_data update_method now
      Except.ok ({ s with comments := docs }, r)

/-! ## Concrete fixtures -/

/-- A stored user with id 1 that has never been updated. -/
def u0 : User :=
  { id := some 1, username := "devops_ninja", email := "dev@example.com"
    age := some 29, created_at := 100, updated_at := none, bio := none
    is_active := true }

/-- A store holding just `u0`. -/
def store0 : Store :=
  { users := [u0], articles := [], comments := [], nextId := 2 }

/-- A valid `User` constructor input. -/
def userMap0 : FieldMap :=
  [("username", Value.vstr "devops_ninja"), ("email", Value.vstr "dev@example.com"),
   ("age", Value.vint 29)]

/-- The user `User(**userMap0)` constructs at time 100. -/
def newUser0 : User :=
  { id := none, username := "devops_ninja", email := "dev@example.com"
    age := some 29, created_at := 100, updated_at := none, bio := none
    is_active := true }

/-- A valid `Article` constructor input. -/
def articleMap0 : FieldMap :=
  [("title", Value.vstr "Intro"), ("author", Value.vint 1),
   ("content", Value.vstr "Hello world")]

/-- A valid `Comment` constructor input. -/
def commentMap0 : FieldMap :=
  [("article", Value.vint 7), ("author", Value.vint 1),
   ("content", Value.vstr "First!")]

/-- The comment `Comment(**commentMap0)` constructs at time 100. -/
def newComment0 : Comment :=
  { id := none, article := 7, author := 1, content := "First!"
    created_at := 100, updated_at := none, is_deleted := false
    is_edited := false, parent_comment := none }

/-- The article `Article(**articleMap0)` constructs at time 100. -/
def newArticle0 : Article :=
  { id := none, title := "Intro", author := 1, content := "Hello world"
    tags := [], summary := none, status := ArticleStatus.draft
    published_at := none, created_at := 100, updated_at := none
    view_count := 0 }

/-- A stored draft article with id 3 that has never been published. -/
def article0 : Article :=
  { newArticle0 with id := some 3 }

/-! ## Claims -/

/-- C1: the claim says a generic-update call carrying a lifecycle-method name
and an identifier locates the entity, invokes the method, **persists the
mutated entity**, and gives the method precedence over a simultaneous patch.
The code does neither: at the concrete input below (user 1 exists,
`update_method = "update_timestamp"`, patch on `bio`) the store after the call
holds the user with the patch applied but with `updated_at` still `none` —
the method mutated only the in-memory copy, which was never written back, and
the patch was not skipped. -/
theorem update_method_dispatch_not_persisted_and_patch_applied :
    update Kind.user (some 1) none (some [("bio", Value.vstr "patched")])
        (some "update_timestamp") store0 200 =
      Except.ok ({ store0 with users := [{ u0 with bio := some "patched" }] }, none)
    ∧ ({ u0 with bio := some "patched" } : User).updated_at = none :=
  ⟨rfl, rfl⟩

/-- C2: the claim says every mode of the generic update returns `true` when at
least one entity was modified and `false` otherwise.  The code only has a
`return` statement inside the `filters` branch: at the first input below
(identifier + patch, one entity modified) the call falls off the end and
returns Python `None`, not `true`; at the second input (filter matching zero
entities + patch) the `filters` branch returns `bool(UpdateResult)`, which is
`True`, not `false`. -/
theorem update_return_value_diverges :
    (update Kind.user (some 1) none (some [("is_active", Value.vbool false)])
        none store0 200 =
      Except.ok ({ store0 with users := [{ u0 with is_active := false }] }, none))
    ∧ (update Kind.user none (some [("username", Value.vstr "nobody")])
        (some [("is_active", Value.vbool false)]) none store0 200 =
      Except.ok (store0, some true)) :=
  ⟨rfl, rfl⟩

/-- C3: for every document type, page ≥ 1, limit ≥ 1 and filter, the
pagination engine returns the window of matching documents starting after
exactly `(page-1)*limit` of them, returns at most `limit` items, reports
`total` as the count of all matching documents regardless of the window, and
returns an empty item list (with the same `total`) when the requested page
lies beyond the data. -/
theorem getPage_pagination_contract {α : Type} (getField : α → String → Option Value)
    (docs : List α) (page limit : Nat) (filters : Option FieldMap)
    (_hpage : 1 ≤ page) (_hlimit : 1 ≤ limit) :
    (getPage getField docs page limit filters).items
        = ((docs.filter (fun d => matchesFilter getField d (filters.getD []))).drop
            ((page - 1) * limit)).take limit
    ∧ (getPage getField docs page limit filters).items.length ≤ limit
    ∧ (getPage getField docs page limit filters).total
        = (docs.filter (fun d => matchesFilter getField d (filters.getD []))).length
    ∧ ((docs.filter (fun d => matchesFilter getField d (filters.getD []))).length
          ≤ (page - 1) * limit →
        (getPage getField docs page limit filters).items = []) := by
  refine ⟨rfl, ?_, rfl, ?_⟩
  · show (List.take limit _).length ≤ limit
    rw [List.length_take]
    exact min_le_left _ _
  · intro h
    show List.take limit (List.drop ((page - 1) * limit) _) = []
    rw [List.drop_eq_nil_of_le h, List.take_nil]

/-- Witness for C3: `paginate(page=1000000, limit=10)` over a 5-element
match-all collection returns empty items and `total = 5`. -/
theorem getPage_pagination_contract_witness :
    (getPage (fun (_ : Nat) (_ : String) => none) [1, 2, 3, 4, 5]
        1000000 10 none).items = []
    ∧ (getPage (fun (_ : Nat) (_ : String) => none) [1, 2, 3, 4, 5]
        1000000 10 none).total = 5 :=
  ⟨(getPage_pagination_contract (fun _ _ => none) [1, 2, 3, 4, 5] 1000000 10 none
      (by decide) (by decide)).2.2.2 (by decide), rfl⟩

/-- C4: the claim says the single-map branch of the generic create constructs
one entity, validates it, inserts it and returns it.  At the concrete input
below the field map is valid (first conjunct) yet `create` raises `TypeError`
(second conjunct): the source calls `insert` on the class object instead of on
the constructed item, so the entity is never persisted and the trailing
`return item` is unreachable. -/
theorem create_single_never_inserts :
    User.fromMap userMap0 100 = Except.ok newUser0
    ∧ create Kind.user (CreateInput.dict userMap0) store0 100 =
        Except.error PyError.typeError :=
  ⟨rfl, rfl⟩

/-- C5: the claim says the list branch of the generic create constructs and
bulk-inserts entities **of kind T**, all-or-nothing.  The source hardcodes
`User` in the comprehension and in `insert_many`: a valid `Article` field map
(first conjunct) passed in a batch with `model = Article` fails `User`
validation and creates nothing (second conjunct); a `User`-shaped map passed
with `model = Article` is inserted into the **users** collection, leaving the
articles collection untouched (third conjunct). -/
theorem create_batch_builds_users_not_model_kind :
    Article.fromMap articleMap0 100 = Except.ok newArticle0
    ∧ create Kind.article (CreateInput.list [articleMap0]) store0 100 =
        Except.error PyError.validationError
    ∧ create Kind.article (CreateInput.list [userMap0]) store0 100 =
        Except.ok
          ({ store0 with
              users := store0.users ++ [{ newUser0 with id := some 2 }]
              nextId := 3 },
           CreateResult.insertedMany [2]) :=
  ⟨rfl, rfl, rfl⟩

/-- C6 counterexample: the claim says **every** write — including a field
patch applied through the generic update — refreshes `updated_at`.  At the
concrete input below the patch on `bio` modifies the stored user, yet its
`updated_at` is still `none` after the write: query-level `$set` updates
bypass the `before_event` timestamp action. -/
theorem update_patch_write_skips_updated_at :
    update Kind.user (some 1) none (some [("bio", Value.vstr "hello")])
        none store0 200 =
      Except.ok ({ store0 with users := [{ u0 with bio := some "hello" }] }, none)
    ∧ ({ u0 with bio := some "hello" } : User).updated_at = none
    ∧ u0.bio ≠ some "hello" :=
  ⟨rfl, rfl, by decide⟩

/-- `$set` of a key other than `updated_at` leaves `updated_at` unchanged. -/
theorem User.setField_ne_updated_at (u : User) (k : String) (v : Value)
    (h : k ≠ "updated_at") : (User.setField u k v).updated_at = u.updated_at := by
  unfold User.setField
  split <;> simp_all

/-- `$set` of a key other than `created_at` leaves `created_at` unchanged. -/
theorem User.setField_ne_created_at (u : User) (k : String) (v : Value)
    (h : k ≠ "created_at") : (User.setField u k v).created_at = u.created_at := by
  unfold User.setField
  split <;> simp_all

/-- A patch that never names `updated_at` leaves `updated_at` unchanged. -/
theorem applySet_ne_updated_at (p : FieldMap) :
    ∀ (u : User), (∀ kv ∈ p, kv.1 ≠ "updated_at") →
      (applySet User.setField u p).updated_at = u.updated_at := by
  induction p with
  | nil => intro u _; rfl
  | cons kv rest ih =>
      intro u h
      calc (applySet User.setField u (kv :: rest)).updated_at
          = (applySet User.setField (User.setField u kv.1 kv.2) rest).updated_at := rfl
        _ = (User.setField u kv.1 kv.2).updated_at :=
            ih _ (fun x hx => h x (List.mem_cons_of_mem kv hx))
        _ = u.updated_at :=
            User.setField_ne_updated_at u kv.1 kv.2 (h kv (List.mem_cons_self kv rest))

/-- A patch that never names `created_at` leaves `created_at` unchanged. -/
theorem applySet_ne_created_at (p : FieldMap) :
    ∀ (u : User), (∀ kv ∈ p, kv.1 ≠ "created_at") →
      (applySet User.setField u p).created_at = u.created_at := by
  induction p with
  | nil => intro u _; rfl
  | cons kv rest ih =>
      intro u h
      calc (applySet User.setField u (kv :: rest)).created_at
          = (applySet User.setField (User.setField u kv.1 kv.2) rest).created_at := rfl
        _ = (User.setField u kv.1 kv.2).created_at :=
            ih _ (fun x hx => h x (List.mem_cons_of_mem kv hx))
        _ = u.created_at :=
            User.setField_ne_created_at u kv.1 kv.2 (h kv (List.mem_cons_self kv rest))

/-- `$set` of a key other than `updated_at` leaves an `Article`'s
`updated_at` unchanged. -/
theorem article_setField_ne_updated_at (a : Article) (k : String) (v : Value)
    (h : k ≠ "updated_at") : (Article.setField a k v).updated_at = a.updated_at := by
  unfold Article.setField
  split <;> simp_all

/-- `$set` of a key other than `created_at` leaves an `Article`'s
`created_at` unchanged. -/
theorem article_setField_ne_created_at (a : Article) (k : String) (v : Value)
    (h : k ≠ "created_at") : (Article.setField a k v).created_at = a.created_at := by
  unfold Article.setField
  split <;> simp_all

/-- `$set` of a key other than `updated_at` leaves a `Comment`'s
`updated_at` unchanged. -/
theorem comment_setField_ne_updated_at (c : Comment) (k : String) (v : Value)
    (h : k ≠ "updated_at") : (Comment.setField c k v).updated_at = c.updated_at := by
  unfold Comment.setField
  split <;> simp_all

/-- `$set` of a key other than `created_at` leaves a `Comment`'s
`created_at` unchanged. -/
theorem comment_setField_ne_created_at (c : Comment) (k : String) (v : Value)
    (h : k ≠ "created_at") : (Comment.setField c k v).created_at = c.created_at := by
  unfold Comment.setField
  split <;> simp_all

/-- A patch that never names `updated_at` leaves an `Article`'s `updated_at`
unchanged. -/
theorem applySet_article_ne_updated_at (p : FieldMap) :
    ∀ (a : Article), (∀ kv ∈ p, kv.1 ≠ "updated_at") →
      (applySet Article.setField a p).updated_at = a.updated_at := by
  induction p with
  | nil => intro a _; rfl
  | cons kv rest ih =>
      intro a h
      calc (applySet Article.setField a (kv :: rest)).updated_at
          = (applySet Article.setField (Article.setField a kv.1 kv.2) rest).updated_at := rfl
        _ = (Article.setField a kv.1 kv.2).updated_at :=
            ih _ (fun x hx => h x (List.mem_cons_of_mem kv hx))
        _ = a.updated_at :=
            article_setField_ne_updated_at a kv.1 kv.2 (h kv (List.mem_cons_self kv rest))

/-- A patch that never names `created_at` leaves an `Article`'s `created_at`
unchanged. -/
theorem applySet_article_ne_created_at (p : FieldMap) :
    ∀ (a : Article), (∀ kv ∈ p, kv.1 ≠ "created_at") →
      (applySet Article.setField a p).created_at = a.created_at := by
  induction p with
  | nil => intro a _; rfl
  | cons kv rest ih =>
      intro a h
      calc (applySet Article.setField a (kv :: rest)).created_at
          = (applySet Article.setField (Article.setField a kv.1 kv.2) rest).created_at := rfl
        _ = (Article.setField a kv.1 kv.2).created_at :=
            ih _ (fun x hx => h x (List.mem_cons_of_mem kv hx))
        _ = a.created_at :=
            article_setField_ne_created_at a kv.1 kv.2 (h kv (List.mem_cons_self kv rest))

/-- A patch that never names `updated_at` leaves a `Comment`'s `updated_at`
unchanged. -/
theorem applySet_comment_ne_updated_at (p : FieldMap) :
    ∀ (c : Comment), (∀ kv ∈ p, kv.1 ≠ "updated_at") →
      (applySet Comment.setField c p).updated_at = c.updated_at := by
  induction p with
  | nil => intro c _; rfl
  | cons kv rest ih =>
      intro c h
      calc (applySet Comment.setField c (kv :: rest)).updated_at
          = (applySet Comment.setField (Comment.setField c kv.1 kv.2) rest).updated_at := rfl
        _ = (Comment.setField c kv.1 kv.2).updated_at :=
            ih _ (fun x hx => h x (List.mem_cons_of_mem kv hx))
        _ = c.updated_at :=
            comment_setField_ne_updated_at c kv.1 kv.2 (h kv (List.mem_cons_self kv rest))

/-- A patch that never names `created_at` leaves a `Comment`'s `created_at`
unchanged. -/
theorem applySet_comment_ne_created_at (p : FieldMap) :
    ∀ (c : Comment), (∀ kv ∈ p, kv.1 ≠ "created_at") →
      (applySet Comment.setField c p).created_at = c.created_at := by
  induction p with
  | nil => intro c _; rfl
  | cons kv rest ih =>
      intro c h
      calc (applySet Comment.setField c (kv :: rest)).created_at
          = (applySet Comment.setField (Comment.setField c kv.1 kv.2) rest).created_at := rfl
        _ = (Comment.setField c kv.1 kv.2).created_at :=
            ih _ (fun x hx => h x (List.mem_cons_of_mem kv hx))
        _ = c.created_at :=
            comment_setField_ne_created_at c kv.1 kv.2 (h kv (List.mem_cons_self kv rest))

/-- The `Article` pre-write hook `update` always stamps `updated_at`. -/
theorem Article.update_updated_at (a : Article) (now : Nat) :
    (a.update now).updated_at = some now := by
  simp only [Article.update]
  split <;> rfl

/-- The `Article` pre-write hook `update` never changes `created_at`. -/
theorem Article.update_created_at (a : Article) (now : Nat) :
    (a.update now).created_at = a.created_at := by
  simp only [Article.update]
  split <;> rfl

/-- C6 amended: for each of the three entities (User, Article, Comment),
writes that go through the document lifecycle — a document insert, or an
invocation of the entity's pre-write lifecycle hook (`update_timestamp` for
User and Comment, `update` for Article) — refresh `updated_at` and leave
`created_at` unchanged; a field patch applied through the generic update
writes only the fields it names, so a patch that does not name
`updated_at`/`created_at` leaves both exactly as they were (it does **not**
refresh `updated_at`). -/
theorem timestamps_on_write_amended (u : User) (a : Article) (c : Comment)
    (s : Store) (now : Nat) (p : FieldMap)
    (hu : ∀ kv ∈ p, kv.1 ≠ "updated_at")
    (hc : ∀ kv ∈ p, kv.1 ≠ "created_at") :
    (((u.insertOne s now).2.updated_at = some now)
      ∧ ((u.insertOne s now).2.created_at = u.created_at)
      ∧ ((u.update_timestamp now).updated_at = some now)
      ∧ ((u.update_timestamp now).created_at = u.created_at)
      ∧ (applySet User.setField u p).updated_at = u.updated_at
      ∧ (applySet User.setField u p).created_at = u.created_at)
    ∧ (((a.insertOne s now).2.updated_at = some now)
      ∧ ((a.insertOne s now).2.created_at = a.created_at)
      ∧ ((a.update now).updated_at = some now)
      ∧ ((a.update now).created_at = a.created_at)
      ∧ (applySet Article.setField a p).updated_at = a.updated_at
      ∧ (applySet Article.setField a p).created_at = a.created_at)
    ∧ (((c.insertOne s now).2.updated_at = some now)
      ∧ ((c.insertOne s now).2.created_at = c.created_at)
      ∧ ((c.update_timestamp now).updated_at = some now)
      ∧ ((c.update_timestamp now).created_at = c.created_at)
      ∧ (applySet Comment.setField c p).updated_at = c.updated_at
      ∧ (applySet Comment.setField c p).created_at = c.created_at) :=
  ⟨⟨rfl, rfl, rfl, rfl, applySet_ne_updated_at p u hu, applySet_ne_created_at p u hc⟩,
   ⟨Article.update_updated_at a now, Article.update_created_at a now,
    Article.update_updated_at a now, Article.update_created_at a now,
    applySet_article_ne_updated_at p a hu, applySet_article_ne_created_at p a hc⟩,
   ⟨rfl, rfl, rfl, rfl,
    applySet_comment_ne_updated_at p c hu, applySet_comment_ne_created_at p c hc⟩⟩

/-- Witness for the amended C6 at `u0`, `article0`, `newComment0`, time 200
and a `bio`-only patch. -/
theorem timestamps_on_write_amended_witness :
    (((u0.insertOne store0 200).2.updated_at = some 200)
      ∧ ((u0.insertOne store0 200).2.created_at = u0.created_at)
      ∧ ((u0.update_timestamp 200).updated_at = some 200)
      ∧ ((u0.update_timestamp 200).created_at = u0.created_at)
      ∧ (applySet User.setField u0 [("bio", Value.vstr "hi")]).updated_at
          = u0.updated_at
      ∧ (applySet User.setField u0 [("bio", Value.vstr "hi")]).created_at
          = u0.created_at)
    ∧ (((article0.insertOne store0 200).2.updated_at = some 200)
      ∧ ((article0.insertOne store0 200).2.created_at = article0.created_at)
      ∧ ((article0.update 200).updated_at = some 200)
      ∧ ((article0.update 200).created_at = article0.created_at)
      ∧ (applySet Article.setField article0 [("bio", Value.vstr "hi")]).updated_at
          = article0.updated_at
      ∧ (applySet Article.setField article0 [("bio", Value.vstr "hi")]).created_at
          = article0.created_at)
    ∧ (((newComment0.insertOne store0 200).2.updated_at = some 200)
      ∧ ((newComment0.insertOne store0 200).2.created_at = newComment0.created_at)
      ∧ ((newComment0.update_timestamp 200).updated_at = some 200)
      ∧ ((newComment0.update_timestamp 200).created_at = newComment0.created_at)
      ∧ (applySet Comment.setField newComment0 [("bio", Value.vstr "hi")]).updated_at
          = newComment0.updated_at
      ∧ (applySet Comment.setField newComment0 [("bio", Value.vstr "hi")]).created_at
          = newComment0.created_at) :=
  timestamps_on_write_amended u0 article0 newComment0 store0 200
    [("bio", Value.vstr "hi")] (by decide) (by decide)

/-- A hook-mediated write sequence on an `Article`: each write sets `status`
to the given value and then runs the `before_event` action `Article.update`
at the given time, exactly as Beanie does around every insert/save. -/
def applyStatusWrites (a : Article) : List (ArticleStatus × Nat) → Article
  | [] => a
  | (st, t) :: ws => applyStatusWrites (Article.update { a with status := st } t) ws

/-- The time of the first write in the sequence whose status is `published`. -/
def firstPublishTime : List (ArticleStatus × Nat) → Option Nat
  | [] => none
  | (st, t) :: ws =>
      if st = ArticleStatus.published then some t else firstPublishTime ws

/-- The `Article.update` action never changes an already-set `published_at`. -/
theorem Article.update_preserves_published_at (a : Article) (now t : Nat)
    (h : a.published_at = some t) : (a.update now).published_at = some t := by
  simp [Article.update, h]

/-- No write sequence changes an already-set `published_at`. -/
theorem applyStatusWrites_preserves_published_at
    (ws : List (ArticleStatus × Nat)) :
    ∀ (a : Article) (t : Nat), a.published_at = some t →
      (applyStatusWrites a ws).published_at = some t := by
  induction ws with
  | nil => intro a t h; exact h
  | cons w rest ih =>
      intro a t h
      obtain ⟨st, tw⟩ := w
      exact ih _ t (Article.update_preserves_published_at _ tw t h)

/-- Starting from an unpublished article, a write sequence leaves
`published_at` at the time of its first publishing write (and `none` when
there is none). -/
theorem applyStatusWrites_first_publish (ws : List (ArticleStatus × Nat)) :
    ∀ (a : Article), a.published_at = none →
      (applyStatusWrites a ws).published_at = firstPublishTime ws := by
  induction ws with
  | nil => intro a h; exact h
  | cons w rest ih =>
      intro a h
      obtain ⟨st, t⟩ := w
      by_cases hst : st = ArticleStatus.published
      · subst hst
        have hset :
            (Article.update { a with status := ArticleStatus.published } t).published_at
              = some t := by
          simp [Article.update, h]
        show (applyStatusWrites
            (Article.update { a with status := ArticleStatus.published } t)
              rest).published_at
          = firstPublishTime ((ArticleStatus.published, t) :: rest)
        rw [applyStatusWrites_preserves_published_at rest _ t hset]
        simp [firstPublishTime]
      · have hnone :
            (Article.update { a with status := st } t).published_at = none := by
          simp [Article.update, h, hst]
        show (applyStatusWrites (Article.update { a with status := st } t)
              rest).published_at
          = firstPublishTime ((st, t) :: rest)
        rw [ih _ hnone]
        simp [firstPublishTime, hst]

/-- C7: over any sequence of hook-mediated writes, an `Article`'s
`published_at` is set exactly once — at the first write on which the status
is `published` while `published_at` is still unset — and once set, no later
write (however the status flips back and forth) resets or changes it. -/
theorem published_at_set_once (a : Article) (ws : List (ArticleStatus × Nat)) :
    (a.published_at = none →
      (applyStatusWrites a ws).published_at = firstPublishTime ws)
    ∧ (∀ t, a.published_at = some t →
      (applyStatusWrites a ws).published_at = some t) :=
  ⟨applyStatusWrites_first_publish ws a,
   fun t h => applyStatusWrites_preserves_published_at ws a t h⟩

/-- Witness for C7: publishing at time 5, then flipping the status to draft
and back to published, leaves `published_at = some 5`. -/
theorem published_at_set_once_witness :
    (applyStatusWrites article0
        [(ArticleStatus.draft, 1), (ArticleStatus.published, 5),
         (ArticleStatus.draft, 6), (ArticleStatus.published, 7)]).published_at
      = some 5 := by
  have h := (published_at_set_once article0
      [(ArticleStatus.draft, 1), (ArticleStatus.published, 5),
       (ArticleStatus.draft, 6), (ArticleStatus.published, 7)]).1 rfl
  rw [h]
  rfl

/-- C8: the claim says a freshly inserted `Comment` has `is_edited = false`
and only later updates set it.  The constructed comment indeed starts with
`is_edited = false` (second conjunct), but its **first** insert already flips
`is_edited` to `true` (third and fourth conjuncts): `created_at` is populated
at construction and is always truthy, so the `if self.created_at:` guard in
the `before_event([Insert, Update])` action also holds on the initial
insert. -/
theorem comment_first_insert_sets_is_edited :
    Comment.fromMap commentMap0 100 = Except.ok newComment0
    ∧ newComment0.is_edited = false
    ∧ ((newComment0.insertOne store0 150).2).is_edited = true
    ∧ (((newComment0.insertOne store0 150).1).comments.map Comment.is_edited)
        = [true] :=
  ⟨rfl, rfl, rfl, rfl⟩

/-- C9: `soft_delete` sets `is_deleted`, replaces `content` with the fixed
placeholder and changes nothing else — in particular `article`, `author`,
`parent_comment`, the timestamps and the identifier are untouched, so any
reply referencing this comment through `parent_comment` still references it
unchanged. -/
theorem soft_delete_frame (c : Comment) :
    (c.soft_delete).is_deleted = true
    ∧ (c.soft_delete).content = "[This comment has been deleted]"
    ∧ (c.soft_delete).id = c.id
    ∧ (c.soft_delete).article = c.article
    ∧ (c.soft_delete).author = c.author
    ∧ (c.soft_delete).parent_comment = c.parent_comment
    ∧ (c.soft_delete).created_at = c.created_at
    ∧ (c.soft_delete).updated_at = c.updated_at
    ∧ (c.soft_delete).is_edited = c.is_edited
    ∧ ∀ (r : Comment), r.parent_comment = (c.soft_delete).id
        ↔ r.parent_comment = c.id :=
  ⟨rfl, rfl, rfl, rfl, rfl, rfl, rfl, rfl, rfl, fun _ => Iff.rfl⟩

/-- C10: for every entity kind, calling the generic create with an input that
is neither a dict nor a list falls through to `return None`: no error is
raised and the store is returned unchanged. -/
theorem create_non_dict_non_list_returns_none (model : Kind) (s : Store)
    (now : Nat) :
    create model CreateInput.other s now = Except.ok (s, CreateResult.pyNone) :=
  rfl

end BeanieTutorial


